import Mathlib

/-!
Verification of the native display-event receiver bridge
(`core/jni/android_view_DisplayEventReceiver.cpp`).

The C++ file forwards compositor events across the JNI boundary to a Java
observer held only through weak global references.  We embed the dispatch
functions shallowly: JNI objects become Lean structures carrying an explicit
`objId` (object identity), the weak-reference resolutions become booleans in a
`DispatchEnv`, and a pending Java exception after the observer callback becomes
an `Option String` that `raiseAndClearException` forwards to the message-queue
owner.  Machine integers (`int64_t`, `int32_t`) are modelled by `Int`;
`uint32_t` quantities that are only copied (the vsync pulse count, the override
uid) by `Nat`; the `float frameRateHz`, which is only copied bit-for-bit and
never computed on, by its bit pattern as an `Int`.
-/

namespace DisplayEvent

/-- One native frame timeline entry (`VsyncEventData::FrameTimeline` from
libgui), as read by the loops in `dispatchVsync` and
`createJavaVsyncEventData`. -/
structure FrameTimeline where
  vsyncId : Int
  expectedPresentationTime : Int
  deadlineTimestamp : Int
deriving Repr, DecidableEq, Inhabited

/-- The native vsync payload (`VsyncEventData` from libgui).  Its timeline
array has the fixed compile-time length `kFrameTimelinesLength`; we model the
array as a list whose length plays the role of that constant. -/
structure VsyncEventData where
  frameTimelines : List FrameTimeline
  preferredFrameTimelineIndex : Int
  frameInterval : Int
deriving Repr, DecidableEq, Inhabited

/-- A Java `DisplayEventReceiver.VsyncEventData.FrameTimeline` object: an
object identity plus the three long fields written through
`frameTimelineClassInfo`. -/
structure JFrameTimeline where
  objId : Nat
  vsyncId : Int
  expectedPresentationTime : Int
  deadline : Int
deriving Repr, DecidableEq, Inhabited

/-- A Java `DisplayEventReceiver.VsyncEventData` object: object identity, the
`preferredFrameTimelineIndex` and `frameInterval` fields, and the
`frameTimelines` object array. -/
structure JVsyncEventData where
  objId : Nat
  preferredFrameTimelineIndex : Int
  frameInterval : Int
  frameTimelines : List JFrameTimeline
deriving Repr, DecidableEq, Inhabited

/-- One native `FrameRateOverride` entry as received from the event source. -/
structure FrameRateOverride where
  uid : Nat
  frameRateHz : Int
deriving Repr, DecidableEq, Inhabited

/-- A Java `DisplayEventReceiver.FrameRateOverride` object constructed by
`NewObject(frameRateOverrideClass, frameRateOverrideInit, uid, frameRateHz)`:
an object identity plus the two constructor arguments. -/
structure JFrameRateOverride where
  objId : Nat
  uid : Nat
  frameRateHz : Int
deriving Repr, DecidableEq, Inhabited

/-- An invocation of one of the Java observer's handler methods via
`CallVoidMethod`, with exactly the arguments the C++ passes. -/
inductive HandlerCall where
  | onVsync (timestamp displayId : Int) (count : Nat)
  | onHotplug (timestamp displayId : Int) (connected : Bool)
  | onModeChanged (timestamp displayId : Int) (modeId : Int) (renderPeriod : Int)
  | onFrameRateOverrides (timestamp displayId : Int) (overrides : List JFrameRateOverride)
deriving Repr, DecidableEq

/-- The JNI-visible state a dispatch call starts from: whether
`GetReferent(mReceiverWeakGlobal)` resolves, whether
`GetReferent(mVsyncEventDataWeakGlobal)` resolves, and the current contents of
the Java vsync event-data buffer object the latter points to.  A dispatch
begins with no pending Java exception (the looper callback enters with a clean
exception state). -/
structure DispatchEnv where
  receiverLive : Bool
  vsyncDataLive : Bool
  buffer : JVsyncEventData
deriving Repr, DecidableEq, Inhabited

/-- The outcome of one dispatch call: the buffer contents afterwards, the
handler invocations made, and the exception (if any) that
`raiseAndClearException` forwarded to the message-queue owner. -/
structure DispatchResult where
  buffer : JVsyncEventData
  calls : List HandlerCall
  raised : Option String
deriving Repr, DecidableEq

/-- The three `SetLongField` calls on one Java frame-timeline object inside the
loop of `dispatchVsync`: only `vsyncId`, `expectedPresentationTime` and
`deadline` are written; the object itself (its identity) is untouched. -/
def writeTimeline (jt : JFrameTimeline) (ft : FrameTimeline) : JFrameTimeline :=
  { jt with
    vsyncId := ft.vsyncId
    expectedPresentationTime := ft.expectedPresentationTime
    deadline := ft.deadlineTimestamp }

/-- The loop `for i in [0, kFrameTimelinesLength)` of `dispatchVsync`: element
`i` of the Java `frameTimelines` array is fetched with `GetObjectArrayElement`
and its fields overwritten from native entry `i`.  Positions of the Java array
beyond the native length are left untouched. -/
def writeTimelines : List JFrameTimeline → List FrameTimeline → List JFrameTimeline
  | jts, [] => jts
  | [], _ :: _ => []
  | jt :: jts, ft :: fts => writeTimeline jt ft :: writeTimelines jts fts

/-- Embeds `NativeDisplayEventReceiver::dispatchVsync`.  Both weak references
are resolved; only if both yield an object is the buffer populated
(`preferredFrameTimelineIndex`, `frameInterval`, then every timeline entry) and
`dispatchVsync` invoked on the receiver with `(timestamp, displayId.value,
count)`.  `handlerFault` is the Java exception, if any, that the observer's
callback leaves pending; `raiseAndClearException` then forwards it. -/
def dispatchVsync (env : DispatchEnv) (timestamp displayId : Int) (count : Nat)
    (vsyncEventData : VsyncEventData) (handlerFault : Option String) : DispatchResult :=
  if env.receiverLive && env.vsyncDataLive then
    let b := env.buffer
    let b := { b with
      preferredFrameTimelineIndex := vsyncEventData.preferredFrameTimelineIndex
      frameInterval := vsyncEventData.frameInterval
      frameTimelines := writeTimelines b.frameTimelines vsyncEventData.frameTimelines }
    { buffer := b
      calls := [HandlerCall.onVsync timestamp displayId count]
      raised := handlerFault }
  else
    { buffer := env.buffer, calls := [], raised := none }

/-- Embeds `NativeDisplayEventReceiver::dispatchHotplug`: the receiver weak
reference is resolved; only if live is `dispatchHotplug` invoked with
`(timestamp, displayId.value, connected)`. -/
def dispatchHotplug (env : DispatchEnv) (timestamp displayId : Int) (connected : Bool)
    (handlerFault : Option String) : DispatchResult :=
  if env.receiverLive then
    { buffer := env.buffer
      calls := [HandlerCall.onHotplug timestamp displayId connected]
      raised := handlerFault }
  else
    { buffer := env.buffer, calls := [], raised := none }

/-- Embeds `NativeDisplayEventReceiver::dispatchModeChanged`: the receiver weak
reference is resolved; only if live is `dispatchModeChanged` invoked with
`(timestamp, displayId.value, modeId, renderPeriod)`. -/
def dispatchModeChanged (env : DispatchEnv) (timestamp displayId : Int) (modeId : Int)
    (renderPeriod : Int) (handlerFault : Option String) : DispatchResult :=
  if env.receiverLive then
    { buffer := env.buffer
      calls := [HandlerCall.onModeChanged timestamp displayId modeId renderPeriod]
      raised := handlerFault }
  else
    { buffer := env.buffer, calls := [], raised := none }

/-- The loop `for i in [0, overrides.size())` of `dispatchFrameRateOverrides`:
slot `i` of the Java array is overwritten with a freshly constructed
`FrameRateOverride(overrides[i].uid, overrides[i].frameRateHz)` whose object
identity is `freshBase + i`. -/
def fillOverrideSlots (arr : List JFrameRateOverride) (overrides : List FrameRateOverride)
    (i freshBase : Nat) : List JFrameRateOverride :=
  match overrides with
  | [] => arr
  | o :: rest =>
      fillOverrideSlots (arr.set i ⟨freshBase + i, o.uid, o.frameRateHz⟩) rest (i + 1) freshBase

/-- Embeds `NativeDisplayEventReceiver::dispatchFrameRateOverrides`.  If the
receiver weak reference is live, a template object `NewObject(..., 0, 0)` is
allocated (identity `nextObjId`), a Java array of length `overrides.size()` is
created with the template as the initial element of every slot, every slot is
then overwritten with a freshly constructed element, and
`dispatchFrameRateOverrides` is invoked with `(timestamp, displayId.value,
array)`. -/
def dispatchFrameRateOverrides (env : DispatchEnv) (nextObjId : Nat)
    (timestamp displayId : Int) (overrides : List FrameRateOverride)
    (handlerFault : Option String) : DispatchResult :=
  if env.receiverLive then
    let templateObj : JFrameRateOverride := ⟨nextObjId, 0, 0⟩
    let initialArray := List.replicate overrides.length templateObj
    let filledArray := fillOverrideSlots initialArray overrides 0 (nextObjId + 1)
    { buffer := env.buffer
      calls := [HandlerCall.onFrameRateOverrides timestamp displayId filledArray]
      raised := handlerFault }
  else
    { buffer := env.buffer, calls := [], raised := none }

/-- Embeds `NativeDisplayEventReceiver::dispatchNullEvent`, whose body in the
source is empty: nothing is resolved, invoked, mutated or raised. -/
def dispatchNullEvent (env : DispatchEnv) (timestamp displayId : Int) : DispatchResult :=
  { buffer := env.buffer, calls := [], raised := none }

/-- The loop of `createJavaVsyncEventData` that fills the new Java array: entry
`i` becomes a freshly constructed Java `FrameTimeline` (identity
`freshBase + i`) carrying native entry `i`'s three fields. -/
def createTimelineObjs : List FrameTimeline → Nat → List JFrameTimeline
  | [], _ => []
  | ft :: rest, freshBase =>
      ⟨freshBase, ft.vsyncId, ft.expectedPresentationTime, ft.deadlineTimestamp⟩ ::
        createTimelineObjs rest (freshBase + 1)

/-- Embeds `createJavaVsyncEventData`: a new Java array of
`kFrameTimelinesLength` freshly constructed `FrameTimeline` objects, in source
order, wrapped in a new Java `VsyncEventData` carrying
`preferredFrameTimelineIndex` and `frameInterval` unchanged. -/
def createJavaVsyncEventData (vsyncEventData : VsyncEventData) (nextObjId : Nat) :
    JVsyncEventData :=
  { objId := nextObjId + vsyncEventData.frameTimelines.length
    preferredFrameTimelineIndex := vsyncEventData.preferredFrameTimelineIndex
    frameInterval := vsyncEventData.frameInterval
    frameTimelines := createTimelineObjs vsyncEventData.frameTimelines nextObjId }

/-- Lifecycle states of the receiver (spec §4.1). -/
inductive ReceiverState where
  | created
  | initialized
  | disposed
deriving Repr, DecidableEq

/-- The receiver together with the dispatch-visible JNI state.  The lifecycle
state lives in the base `DisplayEventDispatcher`, which is outside this
repository; it is modelled from the spec's state machine (§4.1). -/
structure ReceiverCore where
  state : ReceiverState
  env : DispatchEnv
deriving Repr, DecidableEq

/-- Modelled from the spec: `DisplayEventDispatcher::dispose` (called by
`NativeDisplayEventReceiver::dispose`, but implemented outside this repository)
unregisters from the event source; `Disposed` is terminal. -/
def dispose (r : ReceiverCore) : ReceiverCore :=
  { r with state := ReceiverState.disposed }

/-- One incoming event from the event source, tagged with its payload. -/
inductive Event where
  | vsync (timestamp displayId : Int) (count : Nat) (data : VsyncEventData)
  | hotplug (timestamp displayId : Int) (connected : Bool)
  | modeChanged (timestamp displayId : Int) (modeId : Int) (renderPeriod : Int)
  | frameRateOverrides (timestamp displayId : Int) (overrides : List FrameRateOverride)
  | nullEvent (timestamp displayId : Int)
deriving Repr, DecidableEq

/-- Modelled from the spec: the dispatch loop of the base
`DisplayEventDispatcher` (outside this repository) drives one event at a time;
after `dispose()` has unregistered, no new dispatch begins (spec §4.1, §5).
The per-event branches are the dispatch overrides embedded above from the
source.  `nextObjId` seeds the per-dispatch JNI local allocations;
`handlerFault` is the exception, if any, the observer's callback would leave
pending. -/
def processEvent (r : ReceiverCore) (nextObjId : Nat) (e : Event)
    (handlerFault : Option String) : ReceiverCore × List HandlerCall × Option String :=
  match r.state with
  | ReceiverState.disposed => (r, [], none)
  | _ =>
    let res :=
      match e with
      | Event.vsync ts did c d => dispatchVsync r.env ts did c d handlerFault
      | Event.hotplug ts did conn => dispatchHotplug r.env ts did conn handlerFault
      | Event.modeChanged ts did m p => dispatchModeChanged r.env ts did m p handlerFault
      | Event.frameRateOverrides ts did ovs =>
          dispatchFrameRateOverrides r.env nextObjId ts did ovs handlerFault
      | Event.nullEvent ts did => dispatchNullEvent r.env ts did
    ({ r with env := { r.env with buffer := res.buffer } }, res.calls, res.raised)

/-- Runs a sequence of events (each with the fault its handler invocation would
leave pending) through `processEvent`, collecting every handler call made. -/
def runEvents (r : ReceiverCore) : List (Event × Option String) → ReceiverCore × List HandlerCall
  | [] => (r, [])
  | (e, f) :: rest =>
      let step := processEvent r 0 e f
      let tail := runEvents step.1 rest
      (tail.1, step.2.1 ++ tail.2)

/-- Embeds `nativeScheduleVsync`: `receiver->scheduleVsync()` is a call into
the external base class whose result `status` is an input here; on nonzero
status a RuntimeException is thrown to the caller, and the receiver object
itself is not touched. -/
def nativeScheduleVsync (r : ReceiverCore) (status : Int) : ReceiverCore × Option String :=
  (r, if status ≠ 0 then
        some ("Failed to schedule next vertical sync pulse.  status=" ++ toString status)
      else none)

/-- The outcome of `nativeGetLatestVsyncEventData`: the object returned to Java
(`none` models returning `NULL`) and whether the failure warning was logged. -/
structure QueryResult where
  value : Option JVsyncEventData
  warned : Bool
deriving Repr, DecidableEq

/-- Embeds `nativeGetLatestVsyncEventData`: `receiver->getLatestVsyncEventData`
is a call into the external base class; its result `status` and the fetched
parcelable payload are inputs here.  On nonzero status a warning is logged and
`NULL` is returned; otherwise a fresh Java `VsyncEventData` is built from the
fetched payload. -/
def nativeGetLatestVsyncEventData (status : Int) (fetched : VsyncEventData)
    (nextObjId : Nat) : QueryResult :=
  if status ≠ 0 then { value := none, warned := true }
  else { value := some (createJavaVsyncEventData fetched nextObjId), warned := false }

/-- The list the override-filling loop actually produces when every slot is
overwritten: element `i` is the freshly constructed object with identity
`base + i` carrying override `i`'s fields.  Related to `fillOverrideSlots` by
`fillOverrideSlots_spec` below. -/
def overrideObjs : List FrameRateOverride → Nat → List JFrameRateOverride
  | [], _ => []
  | o :: rest, base => ⟨base, o.uid, o.frameRateHz⟩ :: overrideObjs rest (base + 1)

/-- A concrete Java buffer with four timeline objects (identities 10–13),
used by the witnesses. -/
def sampleBuffer : JVsyncEventData :=
  ⟨5, 0, 0, [⟨10, 1, 2, 3⟩, ⟨11, 4, 5, 6⟩, ⟨12, 7, 8, 9⟩, ⟨13, 21, 22, 23⟩]⟩

/-- The concrete raw payload of the spec's round-trip scenario: four timelines
with vsyncIds 10–13, preferred index 2, frame interval 16666667 ns. -/
def sampleVed : VsyncEventData :=
  ⟨[⟨10, 100, 110⟩, ⟨11, 200, 210⟩, ⟨12, 300, 310⟩, ⟨13, 400, 410⟩], 2, 16666667⟩

/-- Two concrete frame-rate overrides, used by the witnesses. -/
def sampleOverrides : List FrameRateOverride := [⟨1000, 60⟩, ⟨1001, 90⟩]

/-- The timeline-filling loop never touches object identities. -/
theorem writeTimelines_map_objId (jts : List JFrameTimeline) (fts : List FrameTimeline) :
    (writeTimelines jts fts).map (fun jt => jt.objId) = jts.map (fun jt => jt.objId) := by
  induction jts generalizing fts with
  | nil => cases fts <;> simp [writeTimelines]
  | cons jt jts ih =>
    cases fts with
    | nil => simp [writeTimelines]
    | cons ft fts => simp [writeTimelines, writeTimeline, ih]

/-- When the Java array and the native array have equal length, the filling
loop writes every `vsyncId`. -/
theorem writeTimelines_map_vsyncId (jts : List JFrameTimeline) (fts : List FrameTimeline)
    (h : jts.length = fts.length) :
    (writeTimelines jts fts).map (fun jt => jt.vsyncId) = fts.map (fun ft => ft.vsyncId) := by
  induction jts generalizing fts with
  | nil =>
    cases fts with
    | nil => simp [writeTimelines]
    | cons ft fts => simp at h
  | cons jt jts ih =>
    cases fts with
    | nil => simp at h
    | cons ft fts =>
      simp only [List.length_cons, Nat.succ.injEq] at h
      simp [writeTimelines, writeTimeline, ih _ h]

/-- When the Java array and the native array have equal length, the filling
loop writes every `expectedPresentationTime`. -/
theorem writeTimelines_map_ept (jts : List JFrameTimeline) (fts : List FrameTimeline)
    (h : jts.length = fts.length) :
    (writeTimelines jts fts).map (fun jt => jt.expectedPresentationTime) =
      fts.map (fun ft => ft.expectedPresentationTime) := by
  induction jts generalizing fts with
  | nil =>
    cases fts with
    | nil => simp [writeTimelines]
    | cons ft fts => simp at h
  | cons jt jts ih =>
    cases fts with
    | nil => simp at h
    | cons ft fts =>
      simp only [List.length_cons, Nat.succ.injEq] at h
      simp [writeTimelines, writeTimeline, ih _ h]

/-- When the Java array and the native array have equal length, the filling
loop writes every `deadline` from the native `deadlineTimestamp`. -/
theorem writeTimelines_map_deadline (jts : List JFrameTimeline) (fts : List FrameTimeline)
    (h : jts.length = fts.length) :
    (writeTimelines jts fts).map (fun jt => jt.deadline) =
      fts.map (fun ft => ft.deadlineTimestamp) := by
  induction jts generalizing fts with
  | nil =>
    cases fts with
    | nil => simp [writeTimelines]
    | cons ft fts => simp at h
  | cons jt jts ih =>
    cases fts with
    | nil => simp at h
    | cons ft fts =>
      simp only [List.length_cons, Nat.succ.injEq] at h
      simp [writeTimelines, writeTimeline, ih _ h]

/-- Taking one element past an in-range `set` keeps the written element. -/
theorem take_set_succ {α : Type} (arr : List α) (i : Nat) (x : α) (h : i < arr.length) :
    (arr.set i x).take (i + 1) = arr.take i ++ [x] := by
  induction arr generalizing i with
  | nil => simp at h
  | cons a as ih =>
    cases i with
    | zero => simp
    | succ j =>
      simp only [List.length_cons, Nat.succ_lt_succ_iff] at h
      simp [List.set_cons_succ, List.take_succ_cons, ih _ h]

/-- The override-filling loop, started at slot `i` on an array exactly long
enough, overwrites every remaining slot with the fresh objects. -/
theorem fillOverrideSlots_spec (overrides : List FrameRateOverride) :
    ∀ (arr : List JFrameRateOverride) (i base : Nat), arr.length = i + overrides.length →
      fillOverrideSlots arr overrides i base = arr.take i ++ overrideObjs overrides (base + i) := by
  induction overrides with
  | nil =>
    intro arr i base h
    simp only [List.length_nil, Nat.add_zero] at h
    simp [fillOverrideSlots, overrideObjs, List.take_of_length_le (Nat.le_of_eq h)]
  | cons o rest ih =>
    intro arr i base h
    have h' : arr.length = i + (rest.length + 1) := by simpa using h
    have hi : i < arr.length := by omega
    have harr : (arr.set i ⟨base + i, o.uid, o.frameRateHz⟩).length = (i + 1) + rest.length := by
      rw [List.length_set, h']; omega
    show fillOverrideSlots (arr.set i ⟨base + i, o.uid, o.frameRateHz⟩) rest (i + 1) base =
      arr.take i ++ overrideObjs (o :: rest) (base + i)
    rw [ih _ _ _ harr, take_set_succ _ _ _ hi]
    simp [overrideObjs, Nat.add_assoc]

/-- Fresh override objects have length equal to the override count. -/
theorem overrideObjs_length (ovs : List FrameRateOverride) (base : Nat) :
    (overrideObjs ovs base).length = ovs.length := by
  induction ovs generalizing base with
  | nil => simp [overrideObjs]
  | cons o rest ih => simp [overrideObjs, ih]

/-- Fresh override objects carry the uids through positionally. -/
theorem overrideObjs_map_uid (ovs : List FrameRateOverride) (base : Nat) :
    (overrideObjs ovs base).map (fun jo => jo.uid) = ovs.map (fun o => o.uid) := by
  induction ovs generalizing base with
  | nil => simp [overrideObjs]
  | cons o rest ih => simp [overrideObjs, ih]

/-- Fresh override objects carry the frame rates through positionally. -/
theorem overrideObjs_map_hz (ovs : List FrameRateOverride) (base : Nat) :
    (overrideObjs ovs base).map (fun jo => jo.frameRateHz) =
      ovs.map (fun o => o.frameRateHz) := by
  induction ovs generalizing base with
  | nil => simp [overrideObjs]
  | cons o rest ih => simp [overrideObjs, ih]

/-- Every fresh override object has identity at least `base`. -/
theorem overrideObjs_objId_ge (ovs : List FrameRateOverride) (base : Nat) :
    ∀ jo ∈ overrideObjs ovs base, base ≤ jo.objId := by
  induction ovs generalizing base with
  | nil => simp [overrideObjs]
  | cons o rest ih =>
    intro jo hjo
    simp only [overrideObjs, List.mem_cons] at hjo
    rcases hjo with h | h
    · simp [h]
    · exact Nat.le_of_succ_le (ih (base + 1) jo h)

/-- Fresh override objects have pairwise distinct identities. -/
theorem overrideObjs_objId_nodup (ovs : List FrameRateOverride) (base : Nat) :
    ((overrideObjs ovs base).map (fun jo => jo.objId)).Nodup := by
  induction ovs generalizing base with
  | nil => simp [overrideObjs]
  | cons o rest ih =>
    simp only [overrideObjs, List.map_cons, List.nodup_cons]
    refine ⟨?_, ih (base + 1)⟩
    intro hmem
    rcases List.mem_map.mp hmem with ⟨jo, hjo, hid⟩
    have := overrideObjs_objId_ge rest (base + 1) jo hjo
    omega

/-- Every fresh override object has identity strictly above the template's. -/
theorem overrideObjs_above_template (ovs : List FrameRateOverride) (nid : Nat) :
    (overrideObjs ovs (nid + 1)).all (fun jo => decide (nid < jo.objId)) = true := by
  rw [List.all_eq_true]
  intro jo hjo
  have := overrideObjs_objId_ge ovs (nid + 1) jo hjo
  simp
  omega

/-- The fresh-object loop of `createJavaVsyncEventData` preserves length. -/
theorem createTimelineObjs_length (fts : List FrameTimeline) (base : Nat) :
    (createTimelineObjs fts base).length = fts.length := by
  induction fts generalizing base with
  | nil => simp [createTimelineObjs]
  | cons ft rest ih => simp [createTimelineObjs, ih]

/-- The fresh-object loop copies every `vsyncId` positionally. -/
theorem createTimelineObjs_map_vsyncId (fts : List FrameTimeline) (base : Nat) :
    (createTimelineObjs fts base).map (fun jt => jt.vsyncId) =
      fts.map (fun ft => ft.vsyncId) := by
  induction fts generalizing base with
  | nil => simp [createTimelineObjs]
  | cons ft rest ih => simp [createTimelineObjs, ih]

/-- The fresh-object loop copies every `expectedPresentationTime` positionally. -/
theorem createTimelineObjs_map_ept (fts : List FrameTimeline) (base : Nat) :
    (createTimelineObjs fts base).map (fun jt => jt.expectedPresentationTime) =
      fts.map (fun ft => ft.expectedPresentationTime) := by
  induction fts generalizing base with
  | nil => simp [createTimelineObjs]
  | cons ft rest ih => simp [createTimelineObjs, ih]

/-- The fresh-object loop copies every `deadlineTimestamp` positionally. -/
theorem createTimelineObjs_map_deadline (fts : List FrameTimeline) (base : Nat) :
    (createTimelineObjs fts base).map (fun jt => jt.deadline) =
      fts.map (fun ft => ft.deadlineTimestamp) := by
  induction fts generalizing base with
  | nil => simp [createTimelineObjs]
  | cons ft rest ih => simp [createTimelineObjs, ih]

/-- A disposed receiver ignores every event: no call, no raise, no change. -/
theorem processEvent_disposed (r : ReceiverCore) (nid : Nat) (e : Event) (f : Option String)
    (h : r.state = ReceiverState.disposed) : processEvent r nid e f = (r, [], none) := by
  simp [processEvent, h]

/-- A disposed receiver ignores every event sequence. -/
theorem runEvents_disposed (r : ReceiverCore) (es : List (Event × Option String))
    (h : r.state = ReceiverState.disposed) : runEvents r es = (r, []) := by
  induction es with
  | nil => simp [runEvents]
  | cons ef rest ih =>
    obtain ⟨e, f⟩ := ef
    simp [runEvents, processEvent_disposed r 0 e f h, ih]

/-- Claim C1: whenever the observer weak reference fails to resolve, every
dispatch drops the event silently — no handler call, no exception raised, the
buffer untouched; and a vsync dispatch also drops whenever the event-data
buffer weak reference alone fails to resolve. -/
theorem dispatch_drops_when_reference_gone (env₁ env₂ : DispatchEnv) (ts did : Int) (c : Nat)
    (ved : VsyncEventData) (conn : Bool) (modeId renderPeriod : Int)
    (ovs : List FrameRateOverride) (nid : Nat) (fault : Option String)
    (h₁ : env₁.receiverLive = false) (h₂ : env₂.vsyncDataLive = false) :
    dispatchVsync env₁ ts did c ved fault = ⟨env₁.buffer, [], none⟩ ∧
    dispatchVsync env₂ ts did c ved fault = ⟨env₂.buffer, [], none⟩ ∧
    dispatchHotplug env₁ ts did conn fault = ⟨env₁.buffer, [], none⟩ ∧
    dispatchModeChanged env₁ ts did modeId renderPeriod fault = ⟨env₁.buffer, [], none⟩ ∧
    dispatchFrameRateOverrides env₁ nid ts did ovs fault = ⟨env₁.buffer, [], none⟩ := by
  refine ⟨?_, ?_, ?_, ?_, ?_⟩ <;>
    simp [dispatchVsync, dispatchHotplug, dispatchModeChanged, dispatchFrameRateOverrides,
      h₁, h₂]

/-- Witness for C1 at a concrete dead-observer environment and a concrete
dead-buffer environment. -/
theorem dispatch_drops_when_reference_gone_witness :
    dispatchVsync ⟨false, true, sampleBuffer⟩ 100 7 1 sampleVed none =
      ⟨sampleBuffer, [], none⟩ ∧
    dispatchVsync ⟨true, false, sampleBuffer⟩ 100 7 1 sampleVed none =
      ⟨sampleBuffer, [], none⟩ ∧
    dispatchHotplug ⟨false, true, sampleBuffer⟩ 100 7 true none = ⟨sampleBuffer, [], none⟩ ∧
    dispatchModeChanged ⟨false, true, sampleBuffer⟩ 100 7 3 8333333 none =
      ⟨sampleBuffer, [], none⟩ ∧
    dispatchFrameRateOverrides ⟨false, true, sampleBuffer⟩ 0 100 7 sampleOverrides none =
      ⟨sampleBuffer, [], none⟩ :=
  dispatch_drops_when_reference_gone ⟨false, true, sampleBuffer⟩ ⟨true, false, sampleBuffer⟩
    100 7 1 sampleVed true 3 8333333 sampleOverrides 0 none rfl rfl

/-- Claim C2: when both weak references resolve, the vsync dispatch mutates the
resolved buffer in place — the buffer object's identity and every timeline
object's identity are preserved — and fully populates it
(`preferredFrameTimelineIndex`, `frameInterval`, and all three fields of every
timeline entry) before invoking `onVsync` with `(timestamp, displayId,
count)`. -/
theorem vsync_populates_buffer_in_place (env : DispatchEnv) (ts did : Int) (c : Nat)
    (ved : VsyncEventData) (fault : Option String)
    (h₁ : env.receiverLive = true) (h₂ : env.vsyncDataLive = true)
    (h₃ : env.buffer.frameTimelines.length = ved.frameTimelines.length) :
    (dispatchVsync env ts did c ved fault).buffer.objId = env.buffer.objId ∧
    (dispatchVsync env ts did c ved fault).buffer.frameTimelines.map (fun jt => jt.objId) =
      env.buffer.frameTimelines.map (fun jt => jt.objId) ∧
    (dispatchVsync env ts did c ved fault).buffer.preferredFrameTimelineIndex =
      ved.preferredFrameTimelineIndex ∧
    (dispatchVsync env ts did c ved fault).buffer.frameInterval = ved.frameInterval ∧
    (dispatchVsync env ts did c ved fault).buffer.frameTimelines.map (fun jt => jt.vsyncId) =
      ved.frameTimelines.map (fun ft => ft.vsyncId) ∧
    (dispatchVsync env ts did c ved fault).buffer.frameTimelines.map
        (fun jt => jt.expectedPresentationTime) =
      ved.frameTimelines.map (fun ft => ft.expectedPresentationTime) ∧
    (dispatchVsync env ts did c ved fault).buffer.frameTimelines.map (fun jt => jt.deadline) =
      ved.frameTimelines.map (fun ft => ft.deadlineTimestamp) ∧
    (dispatchVsync env ts did c ved fault).calls = [HandlerCall.onVsync ts did c] := by
  simp [dispatchVsync, h₁, h₂, writeTimelines_map_objId,
    writeTimelines_map_vsyncId _ _ h₃, writeTimelines_map_ept _ _ h₃,
    writeTimelines_map_deadline _ _ h₃]

/-- Witness for C2 at a concrete live environment with a four-entry buffer and
the spec's concrete payload. -/
theorem vsync_populates_buffer_in_place_witness :
    (dispatchVsync ⟨true, true, sampleBuffer⟩ 100 7 1 sampleVed none).buffer.objId =
      sampleBuffer.objId ∧
    (dispatchVsync ⟨true, true, sampleBuffer⟩ 100 7 1 sampleVed none).buffer.frameTimelines.map
        (fun jt => jt.objId) =
      sampleBuffer.frameTimelines.map (fun jt => jt.objId) ∧
    (dispatchVsync ⟨true, true, sampleBuffer⟩ 100 7 1
        sampleVed none).buffer.preferredFrameTimelineIndex =
      sampleVed.preferredFrameTimelineIndex ∧
    (dispatchVsync ⟨true, true, sampleBuffer⟩ 100 7 1 sampleVed none).buffer.frameInterval =
      sampleVed.frameInterval ∧
    (dispatchVsync ⟨true, true, sampleBuffer⟩ 100 7 1 sampleVed none).buffer.frameTimelines.map
        (fun jt => jt.vsyncId) =
      sampleVed.frameTimelines.map (fun ft => ft.vsyncId) ∧
    (dispatchVsync ⟨true, true, sampleBuffer⟩ 100 7 1 sampleVed none).buffer.frameTimelines.map
        (fun jt => jt.expectedPresentationTime) =
      sampleVed.frameTimelines.map (fun ft => ft.expectedPresentationTime) ∧
    (dispatchVsync ⟨true, true, sampleBuffer⟩ 100 7 1 sampleVed none).buffer.frameTimelines.map
        (fun jt => jt.deadline) =
      sampleVed.frameTimelines.map (fun ft => ft.deadlineTimestamp) ∧
    (dispatchVsync ⟨true, true, sampleBuffer⟩ 100 7 1 sampleVed none).calls =
      [HandlerCall.onVsync 100 7 1] :=
  vsync_populates_buffer_in_place ⟨true, true, sampleBuffer⟩ 100 7 1 sampleVed none
    rfl rfl rfl

/-- Claim C3: once `dispose()` has returned, no event sequence produces any
further observer handler invocation, and the receiver stays disposed.  The
base-class dispatch gating is modelled from the spec (§4.1, §5). -/
theorem no_delivery_after_dispose (r : ReceiverCore) (es : List (Event × Option String)) :
    (runEvents (dispose r) es).1.state = ReceiverState.disposed ∧
      (runEvents (dispose r) es).2 = [] := by
  rw [runEvents_disposed (dispose r) es rfl]
  exact ⟨rfl, rfl⟩

/-- Claim C4: encoding a raw vsync payload copies each frame timeline into the
output in source order with index preserved and carries
`preferredFrameTimelineIndex` and `frameInterval` through unchanged; on the
spec's concrete payload (vsyncIds 10–13, preferred index 2, interval 16666667)
the entry at index 2 has vsyncId 12 and the interval is 16666667. -/
theorem encode_preserves_fields_and_order (ved : VsyncEventData) (nid : Nat) :
    (createJavaVsyncEventData ved nid).preferredFrameTimelineIndex =
      ved.preferredFrameTimelineIndex ∧
    (createJavaVsyncEventData ved nid).frameInterval = ved.frameInterval ∧
    (createJavaVsyncEventData ved nid).frameTimelines.length = ved.frameTimelines.length ∧
    (createJavaVsyncEventData ved nid).frameTimelines.map (fun jt => jt.vsyncId) =
      ved.frameTimelines.map (fun ft => ft.vsyncId) ∧
    (createJavaVsyncEventData ved nid).frameTimelines.map
        (fun jt => jt.expectedPresentationTime) =
      ved.frameTimelines.map (fun ft => ft.expectedPresentationTime) ∧
    (createJavaVsyncEventData ved nid).frameTimelines.map (fun jt => jt.deadline) =
      ved.frameTimelines.map (fun ft => ft.deadlineTimestamp) ∧
    Option.map (fun jt => jt.vsyncId)
      ((createJavaVsyncEventData sampleVed 0).frameTimelines[2]?) = some 12 ∧
    (createJavaVsyncEventData sampleVed 0).frameInterval = 16666667 :=
  ⟨rfl, rfl, createTimelineObjs_length _ _, createTimelineObjs_map_vsyncId _ _,
    createTimelineObjs_map_ept _ _, createTimelineObjs_map_deadline _ _, by decide, rfl⟩

/-- Claim C5: a frame-rate-overrides delivery to a live observer passes an
array whose length is exactly the override count (empty, never absent, for
zero overrides), each element freshly constructed with that override's uid and
frame rate, all element identities pairwise distinct and distinct from the
template object's identity. -/
theorem frame_rate_overrides_fresh_exact (env : DispatchEnv) (nid : Nat) (ts did : Int)
    (ovs : List FrameRateOverride) (fault : Option String)
    (h : env.receiverLive = true) :
    (dispatchFrameRateOverrides env nid ts did ovs fault).calls =
      [HandlerCall.onFrameRateOverrides ts did (overrideObjs ovs (nid + 1))] ∧
    (overrideObjs ovs (nid + 1)).length = ovs.length ∧
    (overrideObjs ovs (nid + 1)).map (fun jo => jo.uid) = ovs.map (fun o => o.uid) ∧
    (overrideObjs ovs (nid + 1)).map (fun jo => jo.frameRateHz) =
      ovs.map (fun o => o.frameRateHz) ∧
    ((overrideObjs ovs (nid + 1)).map (fun jo => jo.objId)).Nodup ∧
    (overrideObjs ovs (nid + 1)).all (fun jo => decide (nid < jo.objId)) = true ∧
    (dispatchFrameRateOverrides env nid ts did [] fault).calls =
      [HandlerCall.onFrameRateOverrides ts did []] := by
  have hfill : fillOverrideSlots (List.replicate ovs.length ⟨nid, 0, 0⟩) ovs 0 (nid + 1) =
      overrideObjs ovs (nid + 1) := by
    have h0 := fillOverrideSlots_spec ovs (List.replicate ovs.length ⟨nid, 0, 0⟩) 0 (nid + 1)
      (by simp)
    simpa using h0
  refine ⟨?_, overrideObjs_length _ _, overrideObjs_map_uid _ _, overrideObjs_map_hz _ _,
    overrideObjs_objId_nodup _ _, overrideObjs_above_template _ _, ?_⟩
  · simp [dispatchFrameRateOverrides, h, hfill]
  · simp [dispatchFrameRateOverrides, h, fillOverrideSlots]

/-- Witness for C5 at a concrete live environment with two overrides and
template identity 20. -/
theorem frame_rate_overrides_fresh_exact_witness :
    (dispatchFrameRateOverrides ⟨true, true, sampleBuffer⟩ 20 100 7 sampleOverrides
        none).calls =
      [HandlerCall.onFrameRateOverrides 100 7 (overrideObjs sampleOverrides 21)] ∧
    (overrideObjs sampleOverrides 21).length = sampleOverrides.length ∧
    (overrideObjs sampleOverrides 21).map (fun jo => jo.uid) =
      sampleOverrides.map (fun o => o.uid) ∧
    (overrideObjs sampleOverrides 21).map (fun jo => jo.frameRateHz) =
      sampleOverrides.map (fun o => o.frameRateHz) ∧
    ((overrideObjs sampleOverrides 21).map (fun jo => jo.objId)).Nodup ∧
    (overrideObjs sampleOverrides 21).all (fun jo => decide (20 < jo.objId)) = true ∧
    (dispatchFrameRateOverrides ⟨true, true, sampleBuffer⟩ 20 100 7 [] none).calls =
      [HandlerCall.onFrameRateOverrides 100 7 []] :=
  frame_rate_overrides_fresh_exact ⟨true, true, sampleBuffer⟩ 20 100 7 sampleOverrides
    none rfl

/-- Claim C6: for every event kind that invokes a handler, an exception the
observer's callback leaves pending is checked after invocation and forwarded to
the message-queue owner — not absorbed into the receiver's state — and a
subsequent event is still delivered. -/
theorem handler_fault_propagates (env : DispatchEnv) (r : ReceiverCore) (ts did ts₂ did₂ : Int)
    (c : Nat) (ved : VsyncEventData) (conn conn₂ : Bool) (modeId renderPeriod : Int)
    (ovs : List FrameRateOverride) (nid : Nat) (fault : Option String)
    (h₁ : env.receiverLive = true) (h₂ : env.vsyncDataLive = true)
    (h₃ : r.state = ReceiverState.initialized) (h₄ : r.env.receiverLive = true) :
    (dispatchVsync env ts did c ved fault).raised = fault ∧
    (dispatchHotplug env ts did conn fault).raised = fault ∧
    (dispatchModeChanged env ts did modeId renderPeriod fault).raised = fault ∧
    (dispatchFrameRateOverrides env nid ts did ovs fault).raised = fault ∧
    (processEvent r nid (Event.vsync ts did c ved) fault).1.state =
      ReceiverState.initialized ∧
    (processEvent (processEvent r nid (Event.vsync ts did c ved) fault).1 nid
        (Event.hotplug ts₂ did₂ conn₂) none).2.1 = [HandlerCall.onHotplug ts₂ did₂ conn₂] := by
  refine ⟨by simp [dispatchVsync, h₁, h₂], by simp [dispatchHotplug, h₁],
    by simp [dispatchModeChanged, h₁], by simp [dispatchFrameRateOverrides, h₁], ?_, ?_⟩
  · simp [processEvent, h₃]
  · simp [processEvent, h₃, dispatchVsync, dispatchHotplug, h₁, h₂, h₄]

/-- Witness for C6 at a concrete live receiver with a concrete callback
fault. -/
theorem handler_fault_propagates_witness :
    (dispatchVsync ⟨true, true, sampleBuffer⟩ 100 7 1 sampleVed (some "boom")).raised =
      some "boom" ∧
    (dispatchHotplug ⟨true, true, sampleBuffer⟩ 100 7 true (some "boom")).raised =
      some "boom" ∧
    (dispatchModeChanged ⟨true, true, sampleBuffer⟩ 100 7 3 8333333 (some "boom")).raised =
      some "boom" ∧
    (dispatchFrameRateOverrides ⟨true, true, sampleBuffer⟩ 0 100 7 sampleOverrides
        (some "boom")).raised = some "boom" ∧
    (processEvent ⟨ReceiverState.initialized, ⟨true, true, sampleBuffer⟩⟩ 0
        (Event.vsync 100 7 1 sampleVed) (some "boom")).1.state =
      ReceiverState.initialized ∧
    (processEvent (processEvent ⟨ReceiverState.initialized, ⟨true, true, sampleBuffer⟩⟩ 0
        (Event.vsync 100 7 1 sampleVed) (some "boom")).1 0
        (Event.hotplug 200 7 false) none).2.1 = [HandlerCall.onHotplug 200 7 false] :=
  handler_fault_propagates ⟨true, true, sampleBuffer⟩
    ⟨ReceiverState.initialized, ⟨true, true, sampleBuffer⟩⟩ 100 7 200 7 1 sampleVed
    true false 3 8333333 sampleOverrides 0 (some "boom") rfl rfl rfl rfl

/-- Claim C7: when the on-demand query's fetch fails, the result is the
reported-failure outcome (`NULL` with the warning logged), never stale or
default data; on success it is a `VsyncEventData` built from the fetched
payload; the two outcomes are distinguishable. -/
theorem latest_vsync_query_distinguishes_failure (s₁ s₂ : Int) (fetched : VsyncEventData)
    (nid : Nat) (h₁ : s₁ ≠ 0) (h₂ : s₂ = 0) :
    nativeGetLatestVsyncEventData s₁ fetched nid = ⟨none, true⟩ ∧
    nativeGetLatestVsyncEventData s₂ fetched nid =
      ⟨some (createJavaVsyncEventData fetched nid), false⟩ ∧
    nativeGetLatestVsyncEventData s₁ fetched nid ≠
      nativeGetLatestVsyncEventData s₂ fetched nid := by
  refine ⟨by simp [nativeGetLatestVsyncEventData, h₁],
    by simp [nativeGetLatestVsyncEventData, h₂], ?_⟩
  simp [nativeGetLatestVsyncEventData, h₁, h₂]

/-- Witness for C7 at concrete failing and succeeding statuses. -/
theorem latest_vsync_query_distinguishes_failure_witness :
    nativeGetLatestVsyncEventData (-32) sampleVed 0 = ⟨none, true⟩ ∧
    nativeGetLatestVsyncEventData 0 sampleVed 0 =
      ⟨some (createJavaVsyncEventData sampleVed 0), false⟩ ∧
    nativeGetLatestVsyncEventData (-32) sampleVed 0 ≠
      nativeGetLatestVsyncEventData 0 sampleVed 0 :=
  latest_vsync_query_distinguishes_failure (-32) 0 sampleVed 0 (by decide) rfl

/-- Claim C8: when the underlying source rejects a `scheduleVsync` arming
request, a RuntimeException is thrown to the caller (not swallowed) and the
receiver instance is untouched and still delivers subsequent events. -/
theorem schedule_vsync_error_reported (r : ReceiverCore) (s ts did : Int) (conn : Bool)
    (h₁ : s ≠ 0) (h₂ : r.state = ReceiverState.initialized)
    (h₃ : r.env.receiverLive = true) :
    (nativeScheduleVsync r s).2 =
      some ("Failed to schedule next vertical sync pulse.  status=" ++ toString s) ∧
    (nativeScheduleVsync r s).1 = r ∧
    (processEvent (nativeScheduleVsync r s).1 0 (Event.hotplug ts did conn) none).2.1 =
      [HandlerCall.onHotplug ts did conn] := by
  refine ⟨by simp [nativeScheduleVsync, h₁], rfl, ?_⟩
  simp [nativeScheduleVsync, processEvent, h₂, dispatchHotplug, h₃]

/-- Witness for C8 at a concrete rejected status on a concrete live
receiver. -/
theorem schedule_vsync_error_reported_witness :
    (nativeScheduleVsync ⟨ReceiverState.initialized, ⟨true, true, sampleBuffer⟩⟩ (-38)).2 =
      some ("Failed to schedule next vertical sync pulse.  status=" ++
        toString (-38 : Int)) ∧
    (nativeScheduleVsync ⟨ReceiverState.initialized, ⟨true, true, sampleBuffer⟩⟩ (-38)).1 =
      ⟨ReceiverState.initialized, ⟨true, true, sampleBuffer⟩⟩ ∧
    (processEvent (nativeScheduleVsync
        ⟨ReceiverState.initialized, ⟨true, true, sampleBuffer⟩⟩ (-38)).1 0
        (Event.hotplug 100 7 true) none).2.1 = [HandlerCall.onHotplug 100 7 true] :=
  schedule_vsync_error_reported ⟨ReceiverState.initialized, ⟨true, true, sampleBuffer⟩⟩
    (-38) 100 7 true (by decide) rfl rfl

/-- Claim C9: a null-event delivery is a no-op for every environment — no
handler call, no mutation, no exception — regardless of observer liveness. -/
theorem null_event_is_noop (env : DispatchEnv) (ts did : Int) :
    dispatchNullEvent env ts did = ⟨env.buffer, [], none⟩ := rfl

/-- Claim C10: hotplug, mode-changed, frame-rate-overrides and null dispatches
leave the vsync event-data buffer unchanged and are insensitive to whether the
buffer weak reference would resolve — only the vsync dispatch reads it. -/
theorem nonvsync_leaves_buffer_untouched (env : DispatchEnv) (b : Bool) (ts did : Int)
    (conn : Bool) (modeId renderPeriod : Int) (ovs : List FrameRateOverride) (nid : Nat)
    (fault : Option String) :
    (dispatchHotplug env ts did conn fault).buffer = env.buffer ∧
    (dispatchModeChanged env ts did modeId renderPeriod fault).buffer = env.buffer ∧
    (dispatchFrameRateOverrides env nid ts did ovs fault).buffer = env.buffer ∧
    (dispatchNullEvent env ts did).buffer = env.buffer ∧
    dispatchHotplug ⟨env.receiverLive, b, env.buffer⟩ ts did conn fault =
      dispatchHotplug env ts did conn fault ∧
    dispatchModeChanged ⟨env.receiverLive, b, env.buffer⟩ ts did modeId renderPeriod fault =
      dispatchModeChanged env ts did modeId renderPeriod fault ∧
    dispatchFrameRateOverrides ⟨env.receiverLive, b, env.buffer⟩ nid ts did ovs fault =
      dispatchFrameRateOverrides env nid ts did ovs fault ∧
    dispatchNullEvent ⟨env.receiverLive, b, env.buffer⟩ ts did =
      dispatchNullEvent env ts did := by
  cases h : env.receiverLive <;>
    simp [dispatchHotplug, dispatchModeChanged, dispatchFrameRateOverrides,
      dispatchNullEvent, h]

end DisplayEvent
